import Mathlib

/-!
Verification of the Runway Playa Vista event scraper (`bs.py`).

The script is a sequential crawl-and-extract pipeline:
* `scrape_runway_events` fetches a listing page and harvests event
  references (title, absolute url, capture timestamp);
* `scrape_event_details` fetches one detail page and extracts eight
  fields, each falling back to a sentinel when its element is absent,
  and degrades to a six-field error record when the fetch/parse fails;
* `scrape_all_event_details` runs the extractor per reference in order
  and merges each result with the reference's url and timestamp;
* the `__main__` block writes the merged records to a JSON file, but
  only when the harvested listing is nonempty.

Strings are embedded as `List Char`.  The HTTP fetch and the CSS
selection are external collaborators: a fetch is modelled as an
`Except` value (exception text or the selected elements of the page),
and the wall clock as an explicit parameter.
-/

/-- Python strings are embedded as lists of characters. -/
abbrev Str := List Char

/-- The text `str(e)` of a Python exception. -/
abbrev PyErr := Str

/-- The dictionary keys occurring in the script's records. -/
inductive FieldKey where
  | url
  | scraped_at
  | title
  | date
  | date_datetime
  | start_time
  | end_time
  | book_link
  | book_link_text
  | description
deriving DecidableEq, BEq, Repr

/-- A Python dict with string values, as an insertion-ordered
association list. -/
abbrev Record := List (FieldKey × Str)

/-- An anchor element matched by the listing selector
`div.eventlist.eventlist--upcoming > article.eventlist-event > a`:
its `href` attribute, its stripped visible text (`get_text(strip=True)`)
and its `title` attribute. -/
structure Anchor where
  href : Option Str
  innerText : Str
  titleAttr : Option Str
deriving DecidableEq

/-- One element of the harvested listing: `{'title': ..., 'url': ...,
'scraped_at': ...}` as built in `scrape_runway_events`. -/
structure EventReference where
  title : Str
  url : Str
  scraped_at : Str
deriving DecidableEq

/-- The `time.event-date` element: stripped text and `datetime`
attribute. -/
structure DateElem where
  text : Str
  datetimeAttr : Option Str
deriving DecidableEq

/-- The booking button element: `href` attribute and stripped text. -/
structure BookBtn where
  href : Option Str
  text : Str
deriving DecidableEq

/-- The selector results on a successfully fetched and parsed detail
page, one `Option` per `select_one` call in `scrape_event_details`.
`descElem` holds the raw `get_text(separator=' ', strip=True)` text of
the description block. -/
structure DetailPage where
  titleElem : Option Str
  dateElem : Option DateElem
  startTimeElem : Option Str
  endTimeElem : Option Str
  bookLinkElem : Option BookBtn
  descElem : Option Str
deriving DecidableEq

/-- The fixed site origin `'https://www.runwayplayavista.com/'`
prepended to every listing href (note the trailing slash, kept exactly
as in the source). -/
def siteOrigin : Str := ("https://www.runwayplayavista.com/").toList

/-- Sentinel `'No title'` used in the listing harvester. -/
def noTitleLit : Str := ("No title").toList

/-- Sentinel `'No title found'`. -/
def noTitleFound : Str := ("No title found").toList

/-- Sentinel `'No date found'`. -/
def noDateFound : Str := ("No date found").toList

/-- Sentinel `'No start time found'`. -/
def noStartTimeFound : Str := ("No start time found").toList

/-- Sentinel `'No end time found'`. -/
def noEndTimeFound : Str := ("No end time found").toList

/-- Sentinel `'No description found'`. -/
def noDescriptionFound : Str := ("No description found").toList

/-- The literal `'Error: '` prepended to the exception text in the
failure record (f-string `f'Error: \x7be\x7d'`). -/
def errorHead : Str := ("Error: ").toList

/-- The literal `'Error:'` the spec says the failure description starts
with. -/
def errorColon : Str := ("Error:").toList

/-- Python truthiness boolean `x or y` on strings: `y` when `x` is
empty, else `x`. -/
def pyOrStr (x y : Str) : Str :=
  if x.isEmpty then y else x

/-- `tag.get(attr, default)`: the attribute's value when present, else
the default. -/
def pyGetAttr (attr : Option Str) (dflt : Str) : Str :=
  match attr with
  | some v => v
  | none => dflt

/-- The loop body of `scrape_runway_events`: `href = link.get('href')`
is `None` when the attribute is absent, and `if href:` is truthiness,
so an anchor whose href is absent or empty is skipped; otherwise the
emitted reference's title is
`link.get_text(strip=True) or link.get('title', 'No title')` and its
url is the site origin concatenated with the href.  The wall-clock
reading `datetime.now().isoformat()` is the parameter `now`. -/
def anchorToRef (now : Str) (a : Anchor) : Option EventReference :=
  match a.href with
  | none => none
  | some href =>
      if href.isEmpty then none
      else
        some { title := pyOrStr a.innerText (pyGetAttr a.titleAttr noTitleLit)
               url := siteOrigin ++ href
               scraped_at := now }

/-- The harvesting loop over the selected anchors. -/
def extractRefs (now : Str) (eventLinks : List Anchor) : List EventReference :=
  eventLinks.filterMap (anchorToRef now)

/-- `scrape_runway_events`: the whole fetch-and-parse is wrapped in
`try`; both `except` arms return the empty list. -/
def scrape_runway_events (now : Str) (outcome : Except PyErr (List Anchor)) :
    List EventReference :=
  match outcome with
  | Except.ok eventLinks => extractRefs now eventLinks
  | Except.error _ => []

/-- Leftmost occurrence of the separator `', '` in a string: `none`
when absent, else the parts strictly before and strictly after the
separator. -/
def findCommaSpace : Str → Option (Str × Str)
  | [] => none
  | c :: rest =>
      if c = ',' ∧ rest.head? = some ' ' then some ([], rest.tail)
      else (findCommaSpace rest).map (fun p => (c :: p.1, p.2))

/-- Python `s.split(', ', 1)`: a two-element list when the separator
occurs, else the one-element list `[s]`. -/
def splitCommaSpaceOnce (s : Str) : List Str :=
  match findCommaSpace s with
  | some (pre, post) => [pre, post]
  | none => [s]

/-- Whether `', '` (comma followed by space) occurs in the string. -/
def containsCommaSpace : Str → Bool
  | [] => false
  | c :: rest =>
      ((c == ',') && (match rest.head? with
        | some d => d == ' '
        | none => false)) || containsCommaSpace rest

/-- The date computation of `scrape_event_details`:
`date_parts = full_date_text.split(', ', 1)`, then `date_parts[1]`
when the split produced more than one part, else the full text. -/
def extractDate (fullDateText : Str) : Str :=
  let dateParts := splitCommaSpaceOnce fullDateText
  if h : 1 < dateParts.length then dateParts.get ⟨1, h⟩ else fullDateText

/-- The whitespace class of Python's `re` pattern `\s` (ASCII range). -/
def isPySpace (c : Char) : Bool :=
  (c == ' ') || (c == '\t') || (c == '\n') || (c == '\r') ||
    (c == '\x0b') || (c == '\x0c')

/-- Worker for `re.sub(r'\s+', ' ', text)`: `inRun` records whether the
previous character belonged to a whitespace run already replaced. -/
def collapseAux : Bool → Str → Str
  | _, [] => []
  | inRun, c :: rest =>
      if isPySpace c then
        if inRun then collapseAux true rest
        else ' ' :: collapseAux true rest
      else c :: collapseAux false rest

/-- `re.sub(r'\s+', ' ', text)`: every maximal run of whitespace is
replaced by a single space. -/
def collapseWhitespace (s : Str) : Str :=
  collapseAux false s

/-- The dict built on the success path of `scrape_event_details`, keys
in insertion order. -/
def successRecord (page : DetailPage) : Record :=
  (FieldKey.title,
    match page.titleElem with
    | some t => t
    | none => noTitleFound) ::
  (FieldKey.date,
    match page.dateElem with
    | some d => extractDate d.text
    | none => noDateFound) ::
  (FieldKey.date_datetime,
    match page.dateElem with
    | some d => pyGetAttr d.datetimeAttr []
    | none => []) ::
  (FieldKey.start_time,
    match page.startTimeElem with
    | some t => t
    | none => noStartTimeFound) ::
  (FieldKey.end_time,
    match page.endTimeElem with
    | some t => t
    | none => noEndTimeFound) ::
  (FieldKey.book_link,
    match page.bookLinkElem with
    | some b => pyGetAttr b.href []
    | none => []) ::
  (FieldKey.book_link_text,
    match page.bookLinkElem with
    | some b => b.text
    | none => []) ::
  (FieldKey.description,
    match page.descElem with
    | some raw => collapseWhitespace raw
    | none => noDescriptionFound) :: []

/-- The dict returned from the `except` arm of `scrape_event_details`:
five empty fields and a description embedding the exception text. -/
def errorRecord (e : PyErr) : Record :=
  (FieldKey.title, []) ::
  (FieldKey.date, []) ::
  (FieldKey.start_time, []) ::
  (FieldKey.end_time, []) ::
  (FieldKey.book_link, []) ::
  (FieldKey.description, errorHead ++ e) :: []

/-- `scrape_event_details`: the fetch/parse outcome of the event url is
the `Except` argument; on success the eight-field dict is built, on any
exception the six-field error dict is returned. -/
def scrape_event_details (outcome : Except PyErr DetailPage) : Record :=
  match outcome with
  | Except.ok page => successRecord page
  | Except.error e => errorRecord e

/-- The merge in `scrape_all_event_details`:
`{'url': event['url'], 'scraped_at': event['scraped_at'], **details}`.
The detail dict never contains the keys `url` or `scraped_at`, so the
dict literal is a plain prepend; the reference's `title` is not
consulted. -/
def mergeRecord (event : EventReference) (details : Record) : Record :=
  (FieldKey.url, event.url) :: (FieldKey.scraped_at, event.scraped_at) :: details

/-- The loop of `scrape_all_event_details`; the fetch outcome of the
`i`-th detail request is `oracle i`.  The 1-second politeness sleep has
no effect on the data and is not modelled. -/
def scrapeAllAux (oracle : Nat → Except PyErr DetailPage) :
    Nat → List EventReference → List Record
  | _, [] => []
  | i, event :: rest =>
      mergeRecord event (scrape_event_details (oracle i)) ::
        scrapeAllAux oracle (i + 1) rest

/-- `scrape_all_event_details`: one merged record per reference, in
listing order. -/
def scrape_all_event_details (oracle : Nat → Except PyErr DetailPage)
    (events : List EventReference) : List Record :=
  scrapeAllAux oracle 0 events

/-- The arguments of the single `json.dump`/`open` call of the
`__main__` block. -/
structure JsonDump where
  fileName : Str
  encoding : Str
  indent : Nat
  ensureAscii : Bool
  records : List Record
deriving DecidableEq

/-- The `__main__` block: harvest the listing, and only when it is
nonempty (`if events:`) scrape all details and write them once to
`runway_events_detailed.json` (UTF-8, `indent=2`,
`ensure_ascii=False`); on an empty listing nothing is written. -/
def mainRun (listingOutcome : Except PyErr (List Anchor)) (now : Str)
    (oracle : Nat → Except PyErr DetailPage) : Option JsonDump :=
  let events := scrape_runway_events now listingOutcome
  if events.isEmpty then none
  else
    some { fileName := ("runway_events_detailed.json").toList
           encoding := ("utf-8").toList
           indent := 2
           ensureAscii := false
           records := scrape_all_event_details oracle events }

/-- Head of the string is not whitespace (vacuously true when empty). -/
def headOk : Str → Bool
  | [] => true
  | c :: _ => !(isPySpace c)

/-- The first two characters are not both whitespace. -/
def pairOk (c : Char) : Str → Bool
  | [] => true
  | d :: _ => !(isPySpace c && isPySpace d)

/-- Every whitespace character is a plain space and no two adjacent
characters are both whitespace: the fixed points of the collapse. -/
def noSpaceRuns : Str → Bool
  | [] => true
  | c :: rest =>
      ((!(isPySpace c)) || (c == ' ')) && pairOk c rest && noSpaceRuns rest


/-! ### Definitions used by claim statements and witnesses -/

/-- Everything strictly after the first `','` character, `none` when no
comma occurs.  Together with `claimDate` this renders the spec's
date-splitting sentence, which keys on a bare comma. -/
def splitAtFirstComma : Str → Option Str
  | [] => none
  | c :: rest => if c = ',' then some rest else splitAtFirstComma rest

/-- The date rule as the spec's sentence words it: for text containing
at least one comma, the substring after the first comma with the
leading `', '` removed; otherwise the text unchanged.  Stated for
comparison with `extractDate`, which is the source's rule. -/
def claimDate (text : Str) : Str :=
  match splitAtFirstComma text with
  | some post => if post.head? = some ' ' then post.tail else post
  | none => text

/-- A detail page with every selector missing. -/
def emptyDetailPage : DetailPage :=
  { titleElem := none, dateElem := none, startTimeElem := none,
    endTimeElem := none, bookLinkElem := none, descElem := none }

/-- A fully populated detail page, used in concrete runs. -/
def witnessPage : DetailPage :=
  { titleElem := some (("Real Title").toList)
    dateElem := some { text := ("Wednesday, August 6, 2025").toList
                       datetimeAttr := some (("2025-08-06").toList) }
    startTimeElem := some (("6:00 PM").toList)
    endTimeElem := some (("9:00 PM").toList)
    bookLinkElem := some { href := some (("/book").toList)
                           text := ("Book Now").toList }
    descElem := some (("Fun  event").toList) }

/-- Two harvested references, used in concrete runs. -/
def witnessRefs : List EventReference :=
  [{ title := ("A").toList, url := ("urlA").toList, scraped_at := ("t0").toList },
   { title := ("B").toList, url := ("urlB").toList, scraped_at := ("t1").toList }]

/-- A fetch schedule whose first detail request succeeds and whose
later requests all raise. -/
def witnessOracle : Nat → Except PyErr DetailPage :=
  fun i => if i = 0 then Except.ok witnessPage else Except.error (("boom").toList)

/-- A fetch schedule on which every request raises. -/
def failOracle : Nat → Except PyErr DetailPage :=
  fun _ => Except.error []

/-- The listing anchor used in concrete runs. -/
def witnessAnchor : Anchor :=
  { href := some (("/events2/event-a").toList)
    innerText := ("Event A").toList
    titleAttr := none }

/-- An anchor whose href attribute is present but empty — a falsy
value in Python. -/
def emptyHrefAnchor : Anchor :=
  { href := some []
    innerText := ("Visible text").toList
    titleAttr := none }


/-! ### Helper lemmas on the `', '` search -/

theorem findCommaSpace_cons (c : Char) (rest : Str) :
    findCommaSpace (c :: rest) =
      if c = ',' ∧ rest.head? = some ' ' then some ([], rest.tail)
      else (findCommaSpace rest).map (fun p => (c :: p.1, p.2)) := rfl

theorem containsCommaSpace_cons (c : Char) (rest : Str) :
    containsCommaSpace (c :: rest) =
      (((c == ',') && (match rest.head? with
        | some d => d == ' '
        | none => false)) || containsCommaSpace rest) := rfl

theorem findCommaSpace_append (post : Str) :
    ∀ pre : Str, containsCommaSpace pre = false →
      findCommaSpace (pre ++ ',' :: ' ' :: post) = some (pre, post) := by
  intro pre
  induction pre with
  | nil => intro _; rfl
  | cons c pre' ih =>
    intro h
    cases pre' with
    | nil =>
      rw [List.cons_append, List.nil_append, findCommaSpace_cons]
      rw [if_neg ?hneg]
      case hneg =>
        rintro ⟨-, hh⟩
        rw [List.head?_cons, Option.some.injEq] at hh
        exact absurd hh (by decide)
      have hbase : findCommaSpace (',' :: ' ' :: post) = some ([], post) := rfl
      rw [hbase]
      rfl
    | cons d pre'' =>
      rw [containsCommaSpace_cons] at h
      rw [List.head?_cons] at h
      have h' := Bool.or_eq_false_iff.mp h
      have hfirst : ((c == ',') && (d == ' ')) = false := h'.1
      have hrest : containsCommaSpace (d :: pre'') = false := h'.2
      rw [List.cons_append, findCommaSpace_cons]
      rw [if_neg ?hneg2]
      case hneg2 =>
        rintro ⟨hc, hh⟩
        rw [List.cons_append, List.head?_cons, Option.some.injEq] at hh
        rw [hc, hh] at hfirst
        exact absurd hfirst (by decide)
      rw [ih hrest]
      rfl

theorem findCommaSpace_eq_none :
    ∀ s : Str, containsCommaSpace s = false → findCommaSpace s = none := by
  intro s
  induction s with
  | nil => intro _; rfl
  | cons c rest ih =>
    intro h
    rw [containsCommaSpace_cons] at h
    have h' := Bool.or_eq_false_iff.mp h
    rw [findCommaSpace_cons]
    rw [if_neg ?hneg3]
    case hneg3 =>
      rintro ⟨hc, hh⟩
      cases rest with
      | nil => exact Option.noConfusion hh
      | cons d rest' =>
        rw [List.head?_cons, Option.some.injEq] at hh
        have := h'.1
        rw [List.head?_cons] at this
        rw [hc, hh] at this
        exact absurd this (by decide)
    rw [ih h'.2]
    rfl

/-! ### Helper lemmas on the whitespace collapse -/

theorem collapseAux_cons (b : Bool) (c : Char) (rest : Str) :
    collapseAux b (c :: rest) =
      if isPySpace c then
        (if b then collapseAux true rest else ' ' :: collapseAux true rest)
      else c :: collapseAux false rest := rfl

theorem noSpaceRuns_cons (c : Char) (rest : Str) :
    noSpaceRuns (c :: rest) =
      (((!(isPySpace c)) || (c == ' ')) && pairOk c rest && noSpaceRuns rest) := rfl

theorem collapseAux_noSpaceRuns (s : Str) :
    noSpaceRuns (collapseAux false s) = true ∧
    noSpaceRuns (collapseAux true s) = true ∧
    headOk (collapseAux true s) = true := by
  induction s with
  | nil => exact ⟨rfl, rfl, rfl⟩
  | cons c rest ih =>
    obtain ⟨ih1, ih2, ih3⟩ := ih
    by_cases hc : isPySpace c = true
    · have e1 : collapseAux false (c :: rest) = ' ' :: collapseAux true rest := by
        rw [collapseAux_cons, if_pos hc, if_neg (by decide)]
      have e2 : collapseAux true (c :: rest) = collapseAux true rest := by
        rw [collapseAux_cons, if_pos hc, if_pos rfl]
      refine ⟨?_, ?_, ?_⟩
      · rw [e1, noSpaceRuns_cons]
        have hpair : pairOk ' ' (collapseAux true rest) = true := by
          cases hout : collapseAux true rest with
          | nil => rfl
          | cons d out' =>
            have := ih3
            rw [hout] at this
            have hd : isPySpace d = false := by
              simpa [headOk] using this
            simp [pairOk, hd]
        rw [hpair, ih2]
        rfl
      · rw [e2]; exact ih2
      · rw [e2]; exact ih3
    · have hc' : isPySpace c = false := by simpa using hc
      have e1 : collapseAux false (c :: rest) = c :: collapseAux false rest := by
        rw [collapseAux_cons, if_neg (by simp [hc'])]
      have e2 : collapseAux true (c :: rest) = c :: collapseAux false rest := by
        rw [collapseAux_cons, if_neg (by simp [hc'])]
      have hpair : pairOk c (collapseAux false rest) = true := by
        cases collapseAux false rest with
        | nil => rfl
        | cons d out' => simp [pairOk, hc']
      refine ⟨?_, ?_, ?_⟩
      · rw [e1, noSpaceRuns_cons, hpair, ih1]
        simp [hc']
      · rw [e2, noSpaceRuns_cons, hpair, ih1]
        simp [hc']
      · rw [e2]
        simp [headOk, hc']

theorem noSpaceRuns_fixed :
    ∀ s : Str, noSpaceRuns s = true →
      collapseAux false s = s ∧ (headOk s = true → collapseAux true s = s) := by
  intro s
  induction s with
  | nil => exact fun _ => ⟨rfl, fun _ => rfl⟩
  | cons c rest ih =>
    intro h
    rw [noSpaceRuns_cons] at h
    have h12 := Bool.and_eq_true_iff.mp h
    have h1 := Bool.and_eq_true_iff.mp h12.1
    have hsp : ((!(isPySpace c)) || (c == ' ')) = true := h1.1
    have hpair : pairOk c rest = true := h1.2
    have hrest : noSpaceRuns rest = true := h12.2
    obtain ⟨ihf, iht⟩ := ih hrest
    by_cases hc : isPySpace c = true
    · have hcsp : c = ' ' := by
        rw [hc] at hsp
        simpa using hsp
      subst hcsp
      have hheadrest : headOk rest = true := by
        cases rest with
        | nil => rfl
        | cons d rest' =>
          have : isPySpace d = false := by
            simpa [pairOk, hc] using hpair
          simp [headOk, this]
      constructor
      · rw [collapseAux_cons, if_pos hc, if_neg (by decide), iht hheadrest]
      · intro hh
        rw [headOk, hc] at hh
        exact absurd hh (by decide)
    · have hc' : isPySpace c = false := by simpa using hc
      constructor
      · rw [collapseAux_cons, if_neg (by simp [hc']), ihf]
      · intro _
        rw [collapseAux_cons, if_neg (by simp [hc']), ihf]

/-! ### Helper lemmas on the orchestrator loop -/

theorem scrapeAllAux_length (oracle : Nat → Except PyErr DetailPage) :
    ∀ (events : List EventReference) (n : Nat),
      (scrapeAllAux oracle n events).length = events.length := by
  intro events
  induction events with
  | nil => intro n; rfl
  | cons e rest ih =>
    intro n
    simp only [scrapeAllAux, List.length_cons, ih]

theorem scrapeAllAux_getElem (oracle : Nat → Except PyErr DetailPage) :
    ∀ (events : List EventReference) (n i : Nat),
      (scrapeAllAux oracle n events)[i]? =
        (events[i]?).map
          (fun ev => mergeRecord ev (scrape_event_details (oracle (n + i)))) := by
  intro events
  induction events with
  | nil => intro n i; simp [scrapeAllAux]
  | cons e rest ih =>
    intro n i
    cases i with
    | zero => simp [scrapeAllAux]
    | succ i' =>
      simp only [scrapeAllAux, List.getElem?_cons_succ]
      rw [ih (n + 1) i']
      have harith : n + 1 + i' = n + (i' + 1) := by omega
      rw [harith]

/-! ### Claim theorems -/

/-- Claim C3: `scrape_runway_events` never raises to its caller; it is
a total function of the fetch/parse outcome, every exception arm
returns the empty sequence, and on success it returns the harvested
references. -/
theorem spec_C3 (now : Str) (e : PyErr) :
    scrape_runway_events now (Except.error e) = [] ∧
    ∀ eventLinks : List Anchor,
      scrape_runway_events now (Except.ok eventLinks) = extractRefs now eventLinks :=
  ⟨rfl, fun _ => rfl⟩

/-- Claim C6: for every matched listing anchor that emits a reference
(its href present and truthy — a present-but-empty href emits nothing,
see C7), the reference's url is the fixed site origin string (with its
trailing slash) concatenated with the href — for any nonempty href
string whatsoever, so no normalization and no special handling of
hrefs that are already absolute. -/
theorem spec_C6 (now innerText : Str) (titleAttr : Option Str) (href : Str) :
    (href.isEmpty = false →
      (anchorToRef now
          { href := some href, innerText := innerText, titleAttr := titleAttr }).map
        EventReference.url = some (siteOrigin ++ href)) ∧
    siteOrigin = ("https://www.runwayplayavista.com/").toList := by
  refine ⟨?_, rfl⟩
  intro h
  cases href with
  | nil => exact absurd h (by decide)
  | cons c hs => rfl

/-- Claim C6 witness: a root-relative href and an already-absolute
href, both nonempty; the absolute one gets double-prefixed, evidencing
the absence of any special handling. -/
theorem spec_C6_witness :
    (anchorToRef (("T").toList)
        { href := some (("/events2/event-a").toList)
          innerText := ("Event A").toList
          titleAttr := none }).map EventReference.url =
      some (siteOrigin ++ ("/events2/event-a").toList) ∧
    (anchorToRef (("T").toList)
        { href := some (("https://www.runwayplayavista.com/events2/event-b").toList)
          innerText := ("Event B").toList
          titleAttr := none }).map EventReference.url =
      some (siteOrigin ++
        ("https://www.runwayplayavista.com/events2/event-b").toList) :=
  ⟨(spec_C6 (("T").toList) (("Event A").toList) none
      (("/events2/event-a").toList)).1 (by decide),
   (spec_C6 (("T").toList) (("Event B").toList) none
      (("https://www.runwayplayavista.com/events2/event-b").toList)).1 (by decide)⟩

/-- Claim C7 counterexample: this anchor has an href — the attribute
is present, with value `''` — yet the harvester skips it, because
`if href:` tests truthiness rather than presence; the claim's
otherwise-branch demands a reference titled with the anchor's visible
text for every anchor that has an href. -/
theorem spec_C7_counterexample :
    emptyHrefAnchor.href = some [] ∧
    emptyHrefAnchor.innerText = ("Visible text").toList ∧
    anchorToRef (("T").toList) emptyHrefAnchor = none ∧
    ((anchorToRef (("T").toList) emptyHrefAnchor).map
      EventReference.title).isSome = false ∧
    extractRefs (("T").toList) [emptyHrefAnchor] = [] :=
  ⟨rfl, rfl, rfl, rfl, rfl⟩

/-- Claim C7 as amended: an anchor is skipped — producing no reference
— exactly when its href is absent or empty (Python's `if href:`
truthiness); for an anchor with a nonempty href the title is the
anchor's visible text, falling back to its title attribute when the
visible text is empty, falling back to the literal `'No title'` when
the attribute is absent too. -/
theorem spec_C7 (now innerText : Str) (titleAttr : Option Str) (href : Str) :
    anchorToRef now
        { href := none, innerText := innerText, titleAttr := titleAttr } = none ∧
    anchorToRef now
        { href := some [], innerText := innerText, titleAttr := titleAttr } = none ∧
    extractRefs now
        [{ href := none, innerText := innerText, titleAttr := titleAttr },
         { href := some [], innerText := innerText, titleAttr := titleAttr }] = [] ∧
    (href.isEmpty = false →
      (anchorToRef now
          { href := some href, innerText := innerText, titleAttr := titleAttr }).map
        EventReference.title =
        some (if innerText.isEmpty then
                (match titleAttr with
                 | some t => t
                 | none => noTitleLit)
              else innerText)) := by
  refine ⟨rfl, rfl, rfl, ?_⟩
  intro h
  cases href with
  | nil => exact absurd h (by decide)
  | cons c hs => rfl

/-- Claim C7 witness: a nonempty href with each arm of the title
fallback chain: nonempty visible text, empty text with a title
attribute, and empty text with no attribute giving `'No title'`. -/
theorem spec_C7_witness :
    (anchorToRef (("T").toList)
        { href := some (("/e").toList), innerText := ("Visible").toList
          titleAttr := none }).map EventReference.title =
      some (("Visible").toList) ∧
    (anchorToRef (("T").toList)
        { href := some (("/e").toList), innerText := []
          titleAttr := some (("Attr title").toList) }).map EventReference.title =
      some (("Attr title").toList) ∧
    (anchorToRef (("T").toList)
        { href := some (("/e").toList), innerText := []
          titleAttr := none }).map EventReference.title =
      some noTitleLit := by
  refine ⟨?_, ?_, ?_⟩
  · have h := (spec_C7 (("T").toList) (("Visible").toList) none
      (("/e").toList)).2.2.2 (by decide)
    exact h.trans (by decide)
  · have h := (spec_C7 (("T").toList) [] (some (("Attr title").toList))
      (("/e").toList)).2.2.2 (by decide)
    exact h.trans (by decide)
  · have h := (spec_C7 (("T").toList) [] none (("/e").toList)).2.2.2 (by decide)
    exact h.trans (by decide)

/-- Claim C4: the orchestrator's output has the same length and order
as the input listing; the i-th output merges the i-th reference's url
and scraped_at with the i-th detail record; and the reference's title
is discarded — the merged record's title is the detail record's title,
and the output does not depend on the reference's title at all. -/
theorem spec_C4 (oracle : Nat → Except PyErr DetailPage)
    (events : List EventReference) :
    (scrape_all_event_details oracle events).length = events.length ∧
    (∀ i : Nat, (scrape_all_event_details oracle events)[i]? =
      (events[i]?).map
        (fun ev => mergeRecord ev (scrape_event_details (oracle i)))) ∧
    (∀ (ref : EventReference) (details : Record),
      (mergeRecord ref details).lookup FieldKey.url = some ref.url ∧
      (mergeRecord ref details).lookup FieldKey.scraped_at = some ref.scraped_at ∧
      (mergeRecord ref details).lookup FieldKey.title =
        details.lookup FieldKey.title) ∧
    (∀ (t1 t2 u s : Str) (details : Record),
      mergeRecord { title := t1, url := u, scraped_at := s } details =
        mergeRecord { title := t2, url := u, scraped_at := s } details) := by
  refine ⟨scrapeAllAux_length oracle events 0, ?_, ?_, ?_⟩
  · intro i
    have h := scrapeAllAux_getElem oracle events 0 i
    simpa using h
  · intro ref details
    exact ⟨rfl, rfl, rfl⟩
  · intro t1 t2 u s details
    rfl

/-- Claim C5: on every successfully fetched and parsed detail page the
extractor returns exactly one record with the full eight-field set, in
insertion order, and each field whose source element is absent takes
its sentinel value; absence of an element never reduces the field
count (the key list is the same for every page). -/
theorem spec_C5 (page : DetailPage) :
    scrape_event_details (Except.ok page) = successRecord page ∧
    (successRecord page).map Prod.fst =
      [FieldKey.title, FieldKey.date, FieldKey.date_datetime,
       FieldKey.start_time, FieldKey.end_time, FieldKey.book_link,
       FieldKey.book_link_text, FieldKey.description] ∧
    (page.titleElem = none →
      (successRecord page).lookup FieldKey.title = some noTitleFound) ∧
    (page.dateElem = none →
      (successRecord page).lookup FieldKey.date = some noDateFound ∧
      (successRecord page).lookup FieldKey.date_datetime = some []) ∧
    (page.startTimeElem = none →
      (successRecord page).lookup FieldKey.start_time = some noStartTimeFound) ∧
    (page.endTimeElem = none →
      (successRecord page).lookup FieldKey.end_time = some noEndTimeFound) ∧
    (page.bookLinkElem = none →
      (successRecord page).lookup FieldKey.book_link = some [] ∧
      (successRecord page).lookup FieldKey.book_link_text = some []) ∧
    (page.descElem = none →
      (successRecord page).lookup FieldKey.description = some noDescriptionFound) := by
  obtain ⟨t, d, st, en, bk, ds⟩ := page
  refine ⟨rfl, rfl, ?_, ?_, ?_, ?_, ?_, ?_⟩
  · intro h; subst h; rfl
  · intro h; subst h; exact ⟨rfl, rfl⟩
  · intro h; subst h; rfl
  · intro h; subst h; rfl
  · intro h; subst h; exact ⟨rfl, rfl⟩
  · intro h; subst h; rfl

/-- Claim C5 witness: the theorem applied to the all-absent detail
page; every sentinel shows up and the field count is still eight. -/
theorem spec_C5_witness :
    scrape_event_details (Except.ok emptyDetailPage) = successRecord emptyDetailPage ∧
    (successRecord emptyDetailPage).map Prod.fst =
      [FieldKey.title, FieldKey.date, FieldKey.date_datetime,
       FieldKey.start_time, FieldKey.end_time, FieldKey.book_link,
       FieldKey.book_link_text, FieldKey.description] ∧
    (successRecord emptyDetailPage).lookup FieldKey.title = some noTitleFound ∧
    (successRecord emptyDetailPage).lookup FieldKey.date = some noDateFound ∧
    (successRecord emptyDetailPage).lookup FieldKey.date_datetime = some [] ∧
    (successRecord emptyDetailPage).lookup FieldKey.start_time = some noStartTimeFound ∧
    (successRecord emptyDetailPage).lookup FieldKey.end_time = some noEndTimeFound ∧
    (successRecord emptyDetailPage).lookup FieldKey.book_link = some [] ∧
    (successRecord emptyDetailPage).lookup FieldKey.book_link_text = some [] ∧
    (successRecord emptyDetailPage).lookup FieldKey.description =
      some noDescriptionFound := by
  have h := spec_C5 emptyDetailPage
  exact ⟨h.1, h.2.1, h.2.2.1 rfl, (h.2.2.2.1 rfl).1, (h.2.2.2.1 rfl).2,
         h.2.2.2.2.1 rfl, h.2.2.2.2.2.1 rfl, (h.2.2.2.2.2.2.1 rfl).1,
         (h.2.2.2.2.2.2.1 rfl).2, h.2.2.2.2.2.2.2 rfl⟩

/-- Claim C10: the failure record of `scrape_event_details` carries
only the six keys title, date, start_time, end_time, book_link and
description — date_datetime and book_link_text are absent — so a
merged output record for a failed fetch has two fewer fields than a
merged record for a successful one. -/
theorem spec_C10 (e : PyErr) (ref : EventReference) (page : DetailPage) :
    (scrape_event_details (Except.error e)).map Prod.fst =
      [FieldKey.title, FieldKey.date, FieldKey.start_time, FieldKey.end_time,
       FieldKey.book_link, FieldKey.description] ∧
    ((scrape_event_details (Except.error e)).map Prod.fst).contains
      FieldKey.date_datetime = false ∧
    ((scrape_event_details (Except.error e)).map Prod.fst).contains
      FieldKey.book_link_text = false ∧
    (mergeRecord ref (scrape_event_details (Except.error e))).length + 2 =
      (mergeRecord ref (scrape_event_details (Except.ok page))).length :=
  ⟨rfl, rfl, rfl, rfl⟩

/-- Claim C1: when the fetch or parse of a detail page raises, the
returned record maps every present key other than description to the
empty string, and description to the literal error string `'Error: '`
followed by the exception text, which starts with `'Error:'`; in a full
run the failed event still yields an output record (the merge of its
reference with the error record) and every sibling record is the merge
of its own reference with its own fetch outcome, unaffected by the
failure. -/
theorem spec_C1 (e : PyErr) (refs : List EventReference)
    (oracle : Nat → Except PyErr DetailPage) (i : Nat) (ref : EventReference) :
    ((scrape_event_details (Except.error e)).filter
        (fun p => p.1 != FieldKey.description)).all
      (fun p => p.2.isEmpty) = true ∧
    (scrape_event_details (Except.error e)).lookup FieldKey.description =
      some (errorHead ++ e) ∧
    errorColon.isPrefixOf (errorHead ++ e) = true ∧
    (refs[i]? = some ref → oracle i = Except.error e →
      (scrape_all_event_details oracle refs)[i]? =
        some (mergeRecord ref (scrape_event_details (Except.error e))) ∧
      ∀ j : Nat, (scrape_all_event_details oracle refs)[j]? =
        (refs[j]?).map
          (fun ev => mergeRecord ev (scrape_event_details (oracle j)))) := by
  refine ⟨rfl, rfl, rfl, ?_⟩
  intro h1 h2
  constructor
  · have h := scrapeAllAux_getElem oracle refs 0 i
    simp only [Nat.zero_add] at h
    rw [h1, h2] at h
    exact h
  · intro j
    have h := scrapeAllAux_getElem oracle refs 0 j
    simpa using h

/-- Claim C1 witness: a concrete two-event run whose second detail
fetch raises `'boom'`; the second output record is the merge of the
second reference with the error record, and the first record is the
merge of its own (successful) outcome. -/
theorem spec_C1_witness :
    ((scrape_event_details (Except.error (("boom").toList))).filter
        (fun p => p.1 != FieldKey.description)).all
      (fun p => p.2.isEmpty) = true ∧
    (scrape_event_details (Except.error (("boom").toList))).lookup
      FieldKey.description = some (errorHead ++ ("boom").toList) ∧
    errorColon.isPrefixOf (errorHead ++ ("boom").toList) = true ∧
    (scrape_all_event_details witnessOracle witnessRefs)[1]? =
      some (mergeRecord
        { title := ("B").toList, url := ("urlB").toList, scraped_at := ("t1").toList }
        (scrape_event_details (Except.error (("boom").toList)))) ∧
    (scrape_all_event_details witnessOracle witnessRefs)[0]? =
      (witnessRefs[0]?).map
        (fun ev => mergeRecord ev (scrape_event_details (witnessOracle 0))) := by
  have h := spec_C1 (("boom").toList) witnessRefs witnessOracle 1
    { title := ("B").toList, url := ("urlB").toList, scraped_at := ("t1").toList }
  have h4 := h.2.2.2 (by decide) rfl
  exact ⟨h.1, h.2.1, h.2.2.1, h4.1, h4.2 0⟩

/-- Claim C2 counterexample: `'a,b'` contains a comma, yet the code's
date computation returns it unchanged, while the claim's rule (split at
the first comma) demands `'b'`: Python splits on the two-character
separator `', '`, not on a bare comma. -/
theorem spec_C2_counterexample :
    (("a,b").toList).contains ',' = true ∧
    extractDate (("a,b").toList) = ("a,b").toList ∧
    claimDate (("a,b").toList) = ("b").toList ∧
    ((("a,b").toList : Str) == ("b").toList) = false := by
  refine ⟨?_, ?_, ?_, ?_⟩ <;> decide

/-- Claim C2 as amended: the split happens at the first occurrence of
the two-character separator `', '` (comma followed by space), not at a
bare comma.  For text whose first `', '` occurrence splits it as
`pre ++ ', ' ++ post`, the date field is `post`; for text with no
`', '` occurrence (even if it contains commas), the date field is the
text unchanged. -/
theorem spec_C2 :
    (∀ pre post : Str, containsCommaSpace pre = false →
      extractDate (pre ++ ',' :: ' ' :: post) = post) ∧
    (∀ s : Str, containsCommaSpace s = false → extractDate s = s) := by
  constructor
  · intro pre post h
    have hsplit : splitCommaSpaceOnce (pre ++ ',' :: ' ' :: post) = [pre, post] := by
      unfold splitCommaSpaceOnce
      rw [findCommaSpace_append post pre h]
    simp only [extractDate]
    rw [hsplit]
    rfl
  · intro s h
    have hsplit : splitCommaSpaceOnce s = [s] := by
      unfold splitCommaSpaceOnce
      rw [findCommaSpace_eq_none s h]
    simp only [extractDate, hsplit]
    rfl

/-- Claim C2 witness: the spec's own examples under the amended rule:
`'Wednesday, August 6, 2025'` yields `'August 6, 2025'` and `'TBD'` is
returned unchanged. -/
theorem spec_C2_witness :
    containsCommaSpace (("Wednesday").toList) = false ∧
    extractDate (("Wednesday").toList ++ ',' :: ' ' :: ("August 6, 2025").toList) =
      ("August 6, 2025").toList ∧
    containsCommaSpace (("TBD").toList) = false ∧
    extractDate (("TBD").toList) = ("TBD").toList :=
  ⟨by decide,
   spec_C2.1 (("Wednesday").toList) (("August 6, 2025").toList) (by decide),
   by decide,
   spec_C2.2 (("TBD").toList) (by decide)⟩

/-- Claim C9: the description whitespace-collapse (replace every run of
whitespace by a single space) is idempotent. -/
theorem spec_C9 (s : Str) :
    collapseWhitespace (collapseWhitespace s) = collapseWhitespace s :=
  (noSpaceRuns_fixed (collapseAux false s) (collapseAux_noSpaceRuns s).1).1

/-- Claim C8 counterexample: a run whose listing fetch fails harvests
an empty listing, and then no JSON file is written at all — refuting
"the write happens once per run, including when the harvested listing
is empty" (the script's `if events:` guard skips the write). -/
theorem spec_C8_counterexample :
    scrape_runway_events (("T").toList)
      (Except.error (("ConnectionError").toList)) = [] ∧
    (mainRun (Except.error (("ConnectionError").toList)) (("T").toList)
      failOracle).isNone = true :=
  ⟨rfl, rfl⟩

/-- Claim C8 as amended: when the harvested listing is nonempty the run
writes exactly one JSON file — `runway_events_detailed.json`, UTF-8,
2-space indent, `ensure_ascii=False` so non-ASCII is preserved
literally, containing the merged records; when the listing is empty no
file is written. -/
theorem spec_C8 (listingOutcome : Except PyErr (List Anchor)) (now : Str)
    (oracle : Nat → Except PyErr DetailPage) :
    ((scrape_runway_events now listingOutcome).isEmpty = false →
      mainRun listingOutcome now oracle =
        some { fileName := ("runway_events_detailed.json").toList
               encoding := ("utf-8").toList
               indent := 2
               ensureAscii := false
               records := scrape_all_event_details oracle
                 (scrape_runway_events now listingOutcome) }) ∧
    ((scrape_runway_events now listingOutcome).isEmpty = true →
      mainRun listingOutcome now oracle = none) := by
  constructor
  · intro h
    simp only [mainRun, h]
    rfl
  · intro h
    simp only [mainRun, h]
    rfl

/-- Claim C8 witness: a run over a one-anchor listing writes the file
once with the arguments fixed by the source. -/
theorem spec_C8_witness :
    mainRun (Except.ok [witnessAnchor]) (("T").toList) witnessOracle =
      some { fileName := ("runway_events_detailed.json").toList
             encoding := ("utf-8").toList
             indent := 2
             ensureAscii := false
             records := scrape_all_event_details witnessOracle
               (scrape_runway_events (("T").toList) (Except.ok [witnessAnchor])) } :=
  (spec_C8 (Except.ok [witnessAnchor]) (("T").toList) witnessOracle).1 (by decide)
